import Mathlib

/-!
Verification of the type and value representation layer of `dbkit`
(`src/types.rs`): the symbolic `Type` enumeration with its `name` /
`from_str` tables, the per-kind `ValueInfo` metadata (storage width,
variable-length flag, deep-copy flag), the non-owning `RawData`
(pointer, size) view with its byte and text accessors, and the tagged
`Value` union with its `From` conversions.

Machine conventions of the embedding: bytes and addresses are `Nat`
(address 0 plays the role of the null pointer), memory is a total map
from addresses to bytes, and float values are represented by their bit
patterns, since the code only moves them around and never computes with
them.  The pointer width in bytes (`mem::size_of::<usize>()`, equal to
the width of a raw pointer) is a parameter `ptrW` of the size
computations, so the statements hold on every target word size.
-/

namespace DbKit

/-- The non-owning `RawData` view from `src/types.rs`: a raw `*mut u8`
pointer (here an address, `0` standing for the null pointer) and a byte
count `size`. -/
structure RawData where
  data : Nat
  size : Nat
deriving DecidableEq

/-- Memory: the byte stored at each address. -/
abbrev Mem := Nat → Nat

/-- The symbolic `Type` enum of `src/types.rs` (named `Ty` here because
`Type` is reserved in Lean). -/
inductive Ty
  | UINT32
  | UINT64
  | INT32
  | INT64
  | FLOAT32
  | FLOAT64
  | BOOLEAN
  | TEXT
  | BLOB
deriving DecidableEq

/-- The nine kinds in declaration order. -/
def Ty.all : List Ty :=
  [.UINT32, .UINT64, .INT32, .INT64, .FLOAT32, .FLOAT64, .BOOLEAN, .TEXT, .BLOB]

/-- The `ValueInfo` trait of `src/types.rs` as a descriptor record: the
symbolic kind `ENUM`, the `DEEP_COPY` flag (default `true`), the
`VARLEN` flag (default `false`), and `size_of`, the byte width
`mem::size_of::<Self::Store>()` of the native store type as a function
of the pointer width. -/
structure ValueInfo where
  ENUM : Ty
  DEEP_COPY : Bool := true
  VARLEN : Bool := false
  size_of : Nat → Nat

/-- Width of the `RawData` record itself: a pointer plus a `usize`
length, `ptrW + ptrW` bytes on a target with `ptrW`-byte pointers. -/
def RawData.size_of (ptrW : Nat) : Nat := ptrW + ptrW

/-- `impl ValueInfo for UInt32` (`Store = u32`). -/
def UInt32.valueInfo : ValueInfo := { ENUM := .UINT32, size_of := fun _ => 4 }

/-- `impl ValueInfo for UInt64` (`Store = u64`). -/
def UInt64.valueInfo : ValueInfo := { ENUM := .UINT64, size_of := fun _ => 8 }

/-- `impl ValueInfo for Int32` (`Store = i32`). -/
def Int32.valueInfo : ValueInfo := { ENUM := .INT32, size_of := fun _ => 4 }

/-- `impl ValueInfo for Int64` (`Store = i64`). -/
def Int64.valueInfo : ValueInfo := { ENUM := .INT64, size_of := fun _ => 8 }

/-- `impl ValueInfo for Float32` (`Store = f32`). -/
def Float32.valueInfo : ValueInfo := { ENUM := .FLOAT32, size_of := fun _ => 4 }

/-- `impl ValueInfo for Float64` (`Store = f64`). -/
def Float64.valueInfo : ValueInfo := { ENUM := .FLOAT64, size_of := fun _ => 8 }

/-- `impl ValueInfo for Boolean` (`Store = bool`). -/
def Boolean.valueInfo : ValueInfo := { ENUM := .BOOLEAN, size_of := fun _ => 1 }

/-- `impl ValueInfo for Text` (`Store = RawData`); sets `DEEP_COPY = true`
explicitly (the default) and `VARLEN = true`. -/
def Text.valueInfo : ValueInfo :=
  { ENUM := .TEXT, DEEP_COPY := true, VARLEN := true, size_of := RawData.size_of }

/-- `impl ValueInfo for Blob` (`Store = RawData`); sets `VARLEN = true`. -/
def Blob.valueInfo : ValueInfo :=
  { ENUM := .BLOB, VARLEN := true, size_of := RawData.size_of }

/-- Descriptor lookup: the `ValueInfo` impl whose `ENUM` is the given
kind, mirroring the dispatch of `Type::size_of` over the per-kind
statics. -/
def Ty.valueInfo : Ty → ValueInfo
  | .UINT32  => UInt32.valueInfo
  | .UINT64  => UInt64.valueInfo
  | .INT32   => Int32.valueInfo
  | .INT64   => Int64.valueInfo
  | .FLOAT32 => Float32.valueInfo
  | .FLOAT64 => Float64.valueInfo
  | .BOOLEAN => Boolean.valueInfo
  | .TEXT    => Text.valueInfo
  | .BLOB    => Blob.valueInfo

/-- `Type::name` from `src/types.rs`. -/
def Ty.name : Ty → String
  | .UINT32  => "UINT32"
  | .UINT64  => "UINT64"
  | .INT32   => "INT32"
  | .INT64   => "INT64"
  | .FLOAT32 => "FLOAT32"
  | .FLOAT64 => "FLOAT64"
  | .BOOLEAN => "BOOLEAN"
  | .TEXT    => "TEXT"
  | .BLOB    => "BLOB"

/-- `Type::size_of` from `src/types.rs`: dispatch to the per-kind
`ValueInfo::size_of`, with the pointer width as a parameter. -/
def Ty.size_of (t : Ty) (ptrW : Nat) : Nat :=
  match t with
  | .UINT32  => UInt32.valueInfo.size_of ptrW
  | .UINT64  => UInt64.valueInfo.size_of ptrW
  | .INT32   => Int32.valueInfo.size_of ptrW
  | .INT64   => Int64.valueInfo.size_of ptrW
  | .FLOAT32 => Float32.valueInfo.size_of ptrW
  | .FLOAT64 => Float64.valueInfo.size_of ptrW
  | .BOOLEAN => Boolean.valueInfo.size_of ptrW
  | .TEXT    => Text.valueInfo.size_of ptrW
  | .BLOB    => Blob.valueInfo.size_of ptrW

/-- Modelled from the spec: `DBError` is declared in `src/error.rs`,
which is not part of the sources; the spec describes a single
recoverable error kind, "unknown type name", carrying the offending
string for diagnostics. -/
inductive DBError
  | UnknownType (s : String)
deriving DecidableEq

/-- `<Type as FromStr>::from_str` from `src/types.rs`: the match over
the nine canonical name literals, falling through to
`DBError::UnknownType` carrying the input string. -/
def Ty.from_str (s : String) : Except DBError Ty :=
  if s = "UINT32" then .ok .UINT32
  else if s = "UINT64" then .ok .UINT64
  else if s = "INT32" then .ok .INT32
  else if s = "INT64" then .ok .INT64
  else if s = "FLOAT32" then .ok .FLOAT32
  else if s = "FLOAT64" then .ok .FLOAT64
  else if s = "BOOLEAN" then .ok .BOOLEAN
  else if s = "TEXT" then .ok .TEXT
  else if s = "BLOB" then .ok .BLOB
  else .error (.UnknownType s)

/-- `<RawData as AsRef<[u8]>>::as_ref` from `src/types.rs`:
`slice::from_raw_parts(self.data, self.size)`, read from memory `mem` —
the `size` bytes starting at address `data`. -/
def RawData.as_ref_bytes (self : RawData) (mem : Mem) : List Nat :=
  (List.range self.size).map (fun i => mem (self.data + i))

/-- A Rust `str` value: its UTF-8 bytes.  No well-formedness is
attached, because `str::from_utf8_unchecked` performs no validation. -/
structure Str where
  bytes : List Nat
deriving DecidableEq

/-- `<RawData as AsRef<str>>::as_ref` from `src/types.rs`:
`slice::from_raw_parts(self.data, self.size)` followed by
`str::from_utf8_unchecked`, which reinterprets the bytes without any
encoding check. -/
def RawData.as_ref_str (self : RawData) (mem : Mem) : Str :=
  ⟨(List.range self.size).map (fun i => mem (self.data + i))⟩

/-- `NullType` from `src/types.rs`: the marker struct for the database
null value. -/
structure NullType
deriving DecidableEq

/-- `NULL_VALUE` from `src/types.rs`. -/
def NULL_VALUE : NullType := {}

/-- The bit pattern of an `f32` (the code never computes with floats,
only stores and moves them, so the bit pattern is the whole value). -/
structure F32 where
  bits : Nat
deriving DecidableEq

/-- The bit pattern of an `f64`. -/
structure F64 where
  bits : Nat
deriving DecidableEq

/-- The tagged `Value` union from `src/types.rs`.  `TEXT` borrows a
`str`, `BLOB` borrows a byte slice; lifetimes are erased in the
embedding, the payloads are the borrowed contents. -/
inductive Value
  | NULL
  | UINT32 (v : Nat)
  | UINT64 (v : Nat)
  | INT32 (v : Int)
  | INT64 (v : Int)
  | FLOAT32 (v : F32)
  | FLOAT64 (v : F64)
  | BOOLEAN (v : Bool)
  | TEXT (v : Str)
  | BLOB (v : List Nat)
deriving DecidableEq

/-- `impl From<NullType> for Value`. -/
def Value.from_null (_ : NullType) : Value := .NULL

/-- `impl From<u32> for Value`. -/
def Value.from_u32 (v : Nat) : Value := .UINT32 v

/-- `impl From<u64> for Value`. -/
def Value.from_u64 (v : Nat) : Value := .UINT64 v

/-- `impl From<i32> for Value`. -/
def Value.from_i32 (v : Int) : Value := .INT32 v

/-- `impl From<i64> for Value`. -/
def Value.from_i64 (v : Int) : Value := .INT64 v

/-- `impl From<f32> for Value`. -/
def Value.from_f32 (v : F32) : Value := .FLOAT32 v

/-- `impl From<f64> for Value`. -/
def Value.from_f64 (v : F64) : Value := .FLOAT64 v

/-- `impl From<&str> for Value`. -/
def Value.from_str (v : Str) : Value := .TEXT v

/-- `impl From<&[u8]> for Value`. -/
def Value.from_bytes (v : List Nat) : Value := .BLOB v

end DbKit

namespace DbKit

/-- C1: for every symbolic type kind `k`, `from_str (name k)` succeeds
and yields `k` back — `parse` is a left inverse of `name` on all nine
kinds. -/
theorem C1_parse_name_roundtrip (k : Ty) : Ty.from_str k.name = .ok k := by
  cases k <;> rfl

/-- C2: on any string `s` that is not one of the nine canonical names,
`from_str` fails with the single error kind `UnknownType` carrying
exactly the offending string `s`; being a total Lean function it never
panics, and `DBError` has no other constructor. -/
theorem C2_parse_unknown (s : String) (h : s ∉ Ty.all.map Ty.name) :
    Ty.from_str s = .error (.UnknownType s) := by
  simp [Ty.all, Ty.name] at h
  obtain ⟨h1, h2, h3, h4, h5, h6, h7, h8, h9⟩ := h
  simp [Ty.from_str, h1, h2, h3, h4, h5, h6, h7, h8, h9]

/-- Witness for C2 at the concrete input `"uint32"` (lowercase, hence
not canonical). -/
theorem C2_parse_unknown_witness :
    Ty.from_str "uint32" = .error (.UnknownType "uint32") :=
  C2_parse_unknown "uint32" (by decide)

/-- C3: the absent view (null pointer, size 0) yields the empty byte
sequence from `as_ref_bytes` in every memory, and so does every view
whose size is 0 — the call is a total function application, not a
fault. -/
theorem C3_empty_view_empty_bytes :
    (∀ mem : Mem, RawData.as_ref_bytes ⟨0, 0⟩ mem = []) ∧
    (∀ (rd : RawData) (mem : Mem), rd.size = 0 → rd.as_ref_bytes mem = []) := by
  refine ⟨fun mem => rfl, fun rd mem h => ?_⟩
  simp [RawData.as_ref_bytes, h]

/-- Witness for C3: a zero-length view at a nonzero address, in an
arbitrary concrete memory. -/
theorem C3_empty_view_empty_bytes_witness :
    RawData.as_ref_bytes ⟨5, 0⟩ (fun _ => 0) = [] :=
  C3_empty_view_empty_bytes.2 ⟨5, 0⟩ (fun _ => 0) rfl

/-- C4: every kind has positive storage width (given a positive pointer
width); the width is 4 for `UINT32`, `INT32`, `FLOAT32`, 8 for
`UINT64`, `INT64`, `FLOAT64`, 1 for `BOOLEAN`, and for `TEXT` and
`BLOB` it is the same fixed width of the `RawData` view descriptor
(pointer plus length) for both. -/
theorem C4_storage_widths (ptrW : Nat) (h : 0 < ptrW) :
    (∀ k : Ty, 0 < k.size_of ptrW) ∧
    Ty.size_of .UINT32 ptrW = 4 ∧
    Ty.size_of .INT32 ptrW = 4 ∧
    Ty.size_of .FLOAT32 ptrW = 4 ∧
    Ty.size_of .UINT64 ptrW = 8 ∧
    Ty.size_of .INT64 ptrW = 8 ∧
    Ty.size_of .FLOAT64 ptrW = 8 ∧
    Ty.size_of .BOOLEAN ptrW = 1 ∧
    Ty.size_of .TEXT ptrW = RawData.size_of ptrW ∧
    Ty.size_of .BLOB ptrW = RawData.size_of ptrW := by
  refine ⟨fun k => ?_, rfl, rfl, rfl, rfl, rfl, rfl, rfl, rfl, rfl⟩
  cases k <;>
    simp [Ty.size_of, UInt32.valueInfo, UInt64.valueInfo, Int32.valueInfo,
      Int64.valueInfo, Float32.valueInfo, Float64.valueInfo, Boolean.valueInfo,
      Text.valueInfo, Blob.valueInfo, RawData.size_of] <;>
    omega

/-- Witness for C4 at the 8-byte pointer width of a 64-bit target. -/
theorem C4_storage_widths_witness :
    Ty.size_of .TEXT 8 = RawData.size_of 8 ∧ Ty.size_of .BOOLEAN 8 = 1 :=
  ⟨(C4_storage_widths 8 (by decide)).2.2.2.2.2.2.2.2.1,
   (C4_storage_widths 8 (by decide)).2.2.2.2.2.2.2.1⟩

/-- C5: the `VARLEN` flag of a kind's descriptor is `true` exactly for
`TEXT` and `BLOB`. -/
theorem C5_varlen_iff_text_or_blob (k : Ty) :
    (k.valueInfo).VARLEN = true ↔ (k = .TEXT ∨ k = .BLOB) := by
  cases k <;>
    simp [Ty.valueInfo, UInt32.valueInfo, UInt64.valueInfo, Int32.valueInfo,
      Int64.valueInfo, Float32.valueInfo, Float64.valueInfo, Boolean.valueInfo,
      Text.valueInfo, Blob.valueInfo]

/-- C6: the `DEEP_COPY` flag of every kind's descriptor is `true`: the
trait default is `true` and no impl overrides it to `false` (`Text`
restates the default explicitly). -/
theorem C6_deep_copy_always (k : Ty) : (k.valueInfo).DEEP_COPY = true := by
  cases k <;> rfl

/-- C7: a view constructed over bytes `b` (address `p`, size the length
of `b`, in a memory holding `b` at `p`) reads back exactly `b` from
`as_ref_bytes`: same length, same bytes, straight from the underlying
region. -/
theorem C7_view_identity (mem : Mem) (p : Nat) (b : List Nat)
    (h : ∀ i, i < b.length → mem (p + i) = b.getD i 0) :
    RawData.as_ref_bytes ⟨p, b.length⟩ mem = b := by
  apply List.ext_getElem
  · simp [RawData.as_ref_bytes]
  · intro i h1 h2
    simp only [RawData.as_ref_bytes, List.getElem_map, List.getElem_range]
    rw [h i h2, List.getD_eq_getElem b 0 h2]

/-- Witness for C7: the bytes `[7, 8, 9]` at address 100. -/
theorem C7_view_identity_witness :
    RawData.as_ref_bytes ⟨100, 3⟩
      (fun a => if a = 100 then 7 else if a = 101 then 8 else if a = 102 then 9 else 0)
      = [7, 8, 9] :=
  C7_view_identity
    (fun a => if a = 100 then 7 else if a = 101 then 8 else if a = 102 then 9 else 0)
    100 [7, 8, 9]
    (by
      intro i hi
      have h3 : i < 3 := hi
      interval_cases i <;> rfl)

/-- C8: `as_ref_str` views exactly the bytes `as_ref_bytes` yields —
the text, re-read as bytes, is the `as_ref_bytes` result.  The theorem
holds for every view and memory with no encoding hypothesis, because
`from_utf8_unchecked` performs no validation. -/
theorem C8_text_same_bytes (rd : RawData) (mem : Mem) :
    (rd.as_ref_str mem).bytes = rd.as_ref_bytes mem := rfl

/-- C9: the scalar `From` conversions the source provides — `u32`,
`u64`, `i32`, `i64`, `f32`, `f64` — each yield the variant of the
matching kind holding exactly the input, so matching the variant back
out recovers the input; the float payloads are bit patterns, so the
equality is bit-pattern equality and covers NaN and Infinity patterns.
The claim also asserts this for `bool`, but `src/types.rs` has no
`impl From<bool> for Value` (the `BOOLEAN` variant is the only payload
variant without a conversion), so that part has no code to hold of —
the missing impl is the code bug recorded for this claim. -/
theorem C9_scalar_from_exact :
    (∀ v : Nat, Value.from_u32 v = .UINT32 v) ∧
    (∀ v : Nat, Value.from_u64 v = .UINT64 v) ∧
    (∀ v : Int, Value.from_i32 v = .INT32 v) ∧
    (∀ v : Int, Value.from_i64 v = .INT64 v) ∧
    (∀ v : F32, Value.from_f32 v = .FLOAT32 v) ∧
    (∀ v : F64, Value.from_f64 v = .FLOAT64 v) :=
  ⟨fun _ => rfl, fun _ => rfl, fun _ => rfl, fun _ => rfl,
   fun _ => rfl, fun _ => rfl⟩

/-- C10: converting the null marker always yields the `NULL` variant,
and `NULL` is distinct from every scalar variant — in particular from
each zero-valued one, including `UINT32 0` and `BOOLEAN false`. -/
theorem C10_null_distinct :
    (∀ nt : NullType, Value.from_null nt = .NULL) ∧
    (∀ v : Nat, Value.NULL ≠ .UINT32 v) ∧
    (∀ v : Nat, Value.NULL ≠ .UINT64 v) ∧
    (∀ v : Int, Value.NULL ≠ .INT32 v) ∧
    (∀ v : Int, Value.NULL ≠ .INT64 v) ∧
    (∀ v : F32, Value.NULL ≠ .FLOAT32 v) ∧
    (∀ v : F64, Value.NULL ≠ .FLOAT64 v) ∧
    (∀ v : Bool, Value.NULL ≠ .BOOLEAN v) ∧
    (∀ v : Str, Value.NULL ≠ .TEXT v) ∧
    (∀ v : List Nat, Value.NULL ≠ .BLOB v) :=
  ⟨fun _ => rfl,
   fun _ => Value.noConfusion, fun _ => Value.noConfusion,
   fun _ => Value.noConfusion, fun _ => Value.noConfusion,
   fun _ => Value.noConfusion, fun _ => Value.noConfusion,
   fun _ => Value.noConfusion, fun _ => Value.noConfusion,
   fun _ => Value.noConfusion⟩

end DbKit
